import Mathlib

/-!
Shallow embedding of the om-file-format chunk codec (files `delta2d.c`,
`om_common.c`, `om_encoder.c`) and verification of the specification
claims about it.

Conventions used throughout:

* C `uint64_t` values are modelled as `ℕ` together with explicit
  wrap-around helpers `add64`, `sub64`, `mul64` (arithmetic modulo `2^64`)
  wherever the C source performs `uint64_t` arithmetic that can wrap.
  C `/` and `%` on reduced (`< 2^64`) operands agree with `Nat` `/` and
  `%` (C division by zero is undefined; `Nat` returns 0 there).
* Fixed-width integer buffers are modelled as functions `ℕ → ℕ` holding
  the two's-complement bit pattern of each element (a value `< 2^W`);
  signed wrap-around subtraction/addition on patterns is `sub_u`/`add_u`.
* C `float`/`double` values are modelled by `F := Option ℚ`: `none` is
  NaN, `some q` a finite value.  Arithmetic on finite values is exact
  rational arithmetic (an abstraction of IEEE rounding; none of the
  properties proved below depend on intermediate rounding), NaN
  propagates through `*`, `+`, `-`, `/`, and `fminf`/`fmaxf` have the C
  semantics of returning the other operand when one is NaN.  `roundf` is
  round-half-away-from-zero as in C `round`.  A float-to-int cast is
  truncation toward zero, returning `none` (undefined behaviour) when the
  truncated value does not fit the destination type.
* The machine is little-endian (as the om file format itself and all
  supported targets are); this matters only for the byte/word views used
  by `om_common_copy32` on 64-bit elements and by
  `delta2d_encode_xor_double`, and the divergences exhibited there are
  endianness-independent.
-/

set_option linter.unusedVariables false

/-- `2^64`, the modulus of C `uint64_t` arithmetic. -/
def two64 : ℕ := 18446744073709551616

theorem two64_eq : two64 = 2 ^ 64 := by decide

/-- C `uint64_t` addition (wraps modulo `2^64`). -/
def add64 (a b : ℕ) : ℕ := (a + b) % two64

/-- C `uint64_t` subtraction (wraps modulo `2^64`). -/
def sub64 (a b : ℕ) : ℕ := (a + (two64 - b % two64)) % two64

/-- C `uint64_t` multiplication (wraps modulo `2^64`). -/
def mul64 (a b : ℕ) : ℕ := (a * b) % two64

theorem add64_eq (a b : ℕ) (h : a + b < two64) : add64 a b = a + b := by
  simp [add64, Nat.mod_eq_of_lt h]

theorem sub64_eq (a b : ℕ) (hb : b ≤ a) (ha : a < two64) : sub64 a b = a - b := by
  have hb64 : b < two64 := lt_of_le_of_lt hb ha
  have h1 : a + (two64 - b % two64) = (a - b) + two64 := by
    rw [Nat.mod_eq_of_lt hb64]; omega
  rw [sub64, h1, Nat.add_mod_right, Nat.mod_eq_of_lt (by omega)]

theorem mul64_eq (a b : ℕ) (h : a * b < two64) : mul64 a b = a * b := by
  simp [mul64, Nat.mod_eq_of_lt h]

/-! ## delta2d.c

Each C function operates in place on a flat buffer viewed as a 2-D array
`[length0][length1]`.  Buffers are modelled as total functions `ℕ → ℕ`
from flat index to element bit pattern; an in-place loop body becomes a
pointwise functional update of the row it writes.  The inner `for (d1)`
loop of every function writes only row `d0` while reading rows `d0` and
`d0-1`, so one outer-loop iteration is exactly the pointwise update
`delta2dRowOp`. -/

/-- Wrap-around subtraction of `W`-bit two's-complement bit patterns
(C `int8_t`/`int16_t`/`int32_t`/`int64_t` `-=` with wrap). -/
def sub_u (W a b : ℕ) : ℕ := (a + (2 ^ W - b % 2 ^ W)) % 2 ^ W

/-- Wrap-around addition of `W`-bit two's-complement bit patterns. -/
def add_u (W a b : ℕ) : ℕ := (a + b) % 2 ^ W

/-- One outer-loop iteration of a delta2d transform: combine every element
of row `d0` with the element one row above using `op`
(`chunkBuffer[d0*length1 + d1] = op (chunkBuffer[d0*length1 + d1]) (chunkBuffer[(d0-1)*length1 + d1])`). -/
def delta2dRowOp (op : ℕ → ℕ → ℕ) (length1 d0 : ℕ) (buf : ℕ → ℕ) : ℕ → ℕ :=
  fun j => if d0 * length1 ≤ j ∧ j < d0 * length1 + length1 then op (buf j) (buf (j - length1)) else buf j

/-- The encode outer loop `for (d0 = length0-1; d0 >= 1; d0--)`:
`delta2dEncodeAux op length1 d0 buf` performs the iterations for rows
`d0, d0-1, …, 1` in that (descending) order. -/
def delta2dEncodeAux (op : ℕ → ℕ → ℕ) (length1 : ℕ) : ℕ → (ℕ → ℕ) → (ℕ → ℕ)
  | 0, buf => buf
  | d0 + 1, buf => delta2dEncodeAux op length1 d0 (delta2dRowOp op length1 (d0 + 1) buf)

/-- The decode outer loop `for (d0 = 1; d0 < length0; d0++)`:
`delta2dDecodeAux op length1 d0 buf` performs the iterations for rows
`1, 2, …, d0` in that (ascending) order. -/
def delta2dDecodeAux (op : ℕ → ℕ → ℕ) (length1 : ℕ) : ℕ → (ℕ → ℕ) → (ℕ → ℕ)
  | 0, buf => buf
  | d0 + 1, buf => delta2dRowOp op length1 (d0 + 1) (delta2dDecodeAux op length1 d0 buf)

/-- `delta2d_encode8` from delta2d.c (elements are 8-bit patterns). -/
def delta2d_encode8 (length0 length1 : ℕ) (chunkBuffer : ℕ → ℕ) : ℕ → ℕ :=
  if length0 ≤ 1 then chunkBuffer else delta2dEncodeAux (sub_u 8) length1 (length0 - 1) chunkBuffer

/-- `delta2d_decode8` from delta2d.c. -/
def delta2d_decode8 (length0 length1 : ℕ) (chunkBuffer : ℕ → ℕ) : ℕ → ℕ :=
  if length0 ≤ 1 then chunkBuffer else delta2dDecodeAux (add_u 8) length1 (length0 - 1) chunkBuffer

/-- `delta2d_encode16` from delta2d.c (elements are 16-bit patterns). -/
def delta2d_encode16 (length0 length1 : ℕ) (chunkBuffer : ℕ → ℕ) : ℕ → ℕ :=
  if length0 ≤ 1 then chunkBuffer else delta2dEncodeAux (sub_u 16) length1 (length0 - 1) chunkBuffer

/-- `delta2d_decode16` from delta2d.c. -/
def delta2d_decode16 (length0 length1 : ℕ) (chunkBuffer : ℕ → ℕ) : ℕ → ℕ :=
  if length0 ≤ 1 then chunkBuffer else delta2dDecodeAux (add_u 16) length1 (length0 - 1) chunkBuffer

/-- `delta2d_encode32` from delta2d.c (elements are 32-bit patterns). -/
def delta2d_encode32 (length0 length1 : ℕ) (chunkBuffer : ℕ → ℕ) : ℕ → ℕ :=
  if length0 ≤ 1 then chunkBuffer else delta2dEncodeAux (sub_u 32) length1 (length0 - 1) chunkBuffer

/-- `delta2d_decode32` from delta2d.c. -/
def delta2d_decode32 (length0 length1 : ℕ) (chunkBuffer : ℕ → ℕ) : ℕ → ℕ :=
  if length0 ≤ 1 then chunkBuffer else delta2dDecodeAux (add_u 32) length1 (length0 - 1) chunkBuffer

/-- `delta2d_encode64` from delta2d.c (elements are 64-bit patterns). -/
def delta2d_encode64 (length0 length1 : ℕ) (chunkBuffer : ℕ → ℕ) : ℕ → ℕ :=
  if length0 ≤ 1 then chunkBuffer else delta2dEncodeAux (sub_u 64) length1 (length0 - 1) chunkBuffer

/-- `delta2d_decode64` from delta2d.c. -/
def delta2d_decode64 (length0 length1 : ℕ) (chunkBuffer : ℕ → ℕ) : ℕ → ℕ :=
  if length0 ≤ 1 then chunkBuffer else delta2dDecodeAux (add_u 64) length1 (length0 - 1) chunkBuffer

/-- `delta2d_encode_xor` from delta2d.c: the float buffer is reinterpreted
as 32-bit integer bit patterns (`int* chunkBufferInt = (int*)chunkBuffer`)
and rows are combined with XOR.  Elements here are the 32-bit float bit
patterns themselves. -/
def delta2d_encode_xor (length0 length1 : ℕ) (chunkBuffer : ℕ → ℕ) : ℕ → ℕ :=
  if length0 ≤ 1 then chunkBuffer else delta2dEncodeAux Nat.xor length1 (length0 - 1) chunkBuffer

/-- `delta2d_decode_xor` from delta2d.c. -/
def delta2d_decode_xor (length0 length1 : ℕ) (chunkBuffer : ℕ → ℕ) : ℕ → ℕ :=
  if length0 ≤ 1 then chunkBuffer else delta2dDecodeAux Nat.xor length1 (length0 - 1) chunkBuffer

/-- The 32-bit word view of a buffer of 64-bit element patterns on a
little-endian machine: word `2k` is the low half and word `2k+1` the high
half of element `k`.  This models the C pointer cast `(int*)chunkBuffer`
applied to a `double*` buffer. -/
def words32of64 (buf : ℕ → ℕ) : ℕ → ℕ :=
  fun j => if j % 2 = 0 then buf (j / 2) % 2 ^ 32 else buf (j / 2) / 2 ^ 32

/-- Reassemble 64-bit element patterns from their little-endian 32-bit
word view. -/
def pack32to64 (w : ℕ → ℕ) : ℕ → ℕ :=
  fun k => w (2 * k) + 2 ^ 32 * w (2 * k + 1)

/-- `delta2d_encode_xor_double` from delta2d.c.  NOTE: the C source casts
the `double*` buffer to `int*` (32-bit words, not 64-bit), and then runs
the XOR loop over `length0 × length1` 32-bit words.  The buffer holds
`length0 × length1` doubles, i.e. `2 × length0 × length1` words, so the
loop touches only the first half of the buffer's words.  The model
reproduces this faithfully through the little-endian word view. -/
def delta2d_encode_xor_double (length0 length1 : ℕ) (chunkBuffer : ℕ → ℕ) : ℕ → ℕ :=
  if length0 ≤ 1 then chunkBuffer
  else pack32to64 (delta2dEncodeAux Nat.xor length1 (length0 - 1) (words32of64 chunkBuffer))

/-- `delta2d_decode_xor_double` from delta2d.c (same 32-bit `int*` view as
the encoder). -/
def delta2d_decode_xor_double (length0 length1 : ℕ) (chunkBuffer : ℕ → ℕ) : ℕ → ℕ :=
  if length0 ≤ 1 then chunkBuffer
  else pack32to64 (delta2dDecodeAux Nat.xor length1 (length0 - 1) (words32of64 chunkBuffer))

/-- Modelled from the spec: the behaviour §4.1 of the specification
describes for the `FpxXor2D` predictor on `Double` buffers — reinterpret
each element as an unsigned integer of the same width (64 bits) and XOR
it with the element one row above, the first row untouched.  The C source
does not implement this (it uses a 32-bit word view); this definition is
the spec's claimed behaviour, for comparison. -/
def delta2d_encode_xor_double_spec (length0 length1 : ℕ) (chunkBuffer : ℕ → ℕ) : ℕ → ℕ :=
  if length0 ≤ 1 then chunkBuffer
  else delta2dEncodeAux Nat.xor length1 (length0 - 1) chunkBuffer

/-! ### Generic round-trip lemma for the delta2d loops -/

theorem delta2dRowOp_preserves (op : ℕ → ℕ → ℕ) (P : ℕ → Prop)
    (hop : ∀ a b, P a → P b → P (op a b)) (l1 d0 : ℕ) (buf : ℕ → ℕ)
    (hbuf : ∀ j, P (buf j)) : ∀ j, P (delta2dRowOp op l1 d0 buf j) := by
  intro j
  unfold delta2dRowOp
  split
  · exact hop _ _ (hbuf j) (hbuf (j - l1))
  · exact hbuf j

theorem delta2dEncodeAux_preserves (op : ℕ → ℕ → ℕ) (P : ℕ → Prop)
    (hop : ∀ a b, P a → P b → P (op a b)) (l1 : ℕ) :
    ∀ (n : ℕ) (buf : ℕ → ℕ), (∀ j, P (buf j)) → ∀ j, P (delta2dEncodeAux op l1 n buf j) := by
  intro n
  induction n with
  | zero => intro buf hbuf j; exact hbuf j
  | succ d0 ih =>
      intro buf hbuf j
      exact ih _ (delta2dRowOp_preserves op P hop l1 (d0 + 1) buf hbuf) j

/-- If `bwd` pointwise inverts `fwd` on values satisfying `P`, the decode
loop inverts the encode loop on `P`-valued buffers. -/
theorem delta2d_aux_roundtrip (fwd bwd : ℕ → ℕ → ℕ) (P : ℕ → Prop)
    (hop : ∀ a b, P a → P b → P (fwd a b))
    (hinv : ∀ a b, P a → P b → bwd (fwd a b) b = a) (l1 : ℕ) :
    ∀ (n : ℕ) (buf : ℕ → ℕ), (∀ j, P (buf j)) →
      ∀ j, delta2dDecodeAux bwd l1 n (delta2dEncodeAux fwd l1 n buf) j = buf j := by
  intro n
  induction n with
  | zero => intro buf _ j; rfl
  | succ d0 ih =>
      intro buf hbuf j
      show delta2dRowOp bwd l1 (d0 + 1)
          (delta2dDecodeAux bwd l1 d0 (delta2dEncodeAux fwd l1 d0 (delta2dRowOp fwd l1 (d0 + 1) buf))) j
        = buf j
      have hbuf' : ∀ j, P (delta2dRowOp fwd l1 (d0 + 1) buf j) :=
        delta2dRowOp_preserves fwd P hop l1 (d0 + 1) buf hbuf
      have hmid : ∀ j, delta2dDecodeAux bwd l1 d0 (delta2dEncodeAux fwd l1 d0 (delta2dRowOp fwd l1 (d0 + 1) buf)) j
          = delta2dRowOp fwd l1 (d0 + 1) buf j := ih _ hbuf'
      rw [delta2dRowOp, hmid, hmid]
      by_cases hj : (d0 + 1) * l1 ≤ j ∧ j < (d0 + 1) * l1 + l1
      · rw [if_pos hj]
        have hl1 : 0 < l1 := by
          rcases Nat.eq_zero_or_pos l1 with h0 | h; · omega
          · exact h
        have hjl : ¬((d0 + 1) * l1 ≤ j - l1 ∧ j - l1 < (d0 + 1) * l1 + l1) := by
          intro hc
          have : l1 ≤ j := le_trans (by nlinarith) hj.1
          omega
        rw [delta2dRowOp, if_pos hj, delta2dRowOp, if_neg hjl]
        exact hinv _ _ (hbuf j) (hbuf (j - l1))
      · rw [if_neg hj, delta2dRowOp, if_neg hj]

theorem sub_u_lt (W a b : ℕ) : sub_u W a b < 2 ^ W :=
  Nat.mod_lt _ (Nat.pos_pow_of_pos W (by norm_num))

theorem add_u_sub_u (W a b : ℕ) (ha : a < 2 ^ W) : add_u W (sub_u W a b) b = a := by
  unfold add_u sub_u
  have hW : 0 < 2 ^ W := Nat.pos_pow_of_pos W (by norm_num)
  have hbm : b % 2 ^ W ≤ 2 ^ W := le_of_lt (Nat.mod_lt _ hW)
  rw [Nat.mod_add_mod]
  have hsplit : b = 2 ^ W * (b / 2 ^ W) + b % 2 ^ W := (Nat.div_add_mod b (2 ^ W)).symm
  have hexp : 2 ^ W * (1 + b / 2 ^ W) = 2 ^ W + 2 ^ W * (b / 2 ^ W) := by ring
  have : a + (2 ^ W - b % 2 ^ W) + b = a + 2 ^ W * (1 + b / 2 ^ W) := by
    rw [hexp]; omega
  rw [this, Nat.add_mul_mod_self_left, Nat.mod_eq_of_lt ha]

theorem words32of64_lt (buf : ℕ → ℕ) (hbuf : ∀ k, buf k < 2 ^ 64) :
    ∀ j, words32of64 buf j < 2 ^ 32 := by
  intro j
  unfold words32of64
  split
  · exact Nat.mod_lt _ (by norm_num)
  · have := hbuf (j / 2)
    omega

theorem words32of64_pack32to64 (w : ℕ → ℕ) (hw : ∀ j, w j < 2 ^ 32) :
    ∀ j, words32of64 (pack32to64 w) j = w j := by
  intro j
  unfold words32of64 pack32to64
  by_cases hj : j % 2 = 0
  · rw [if_pos hj]
    have h2 : 2 * (j / 2) = j := by omega
    rw [h2, Nat.add_mul_mod_self_left, Nat.mod_eq_of_lt (hw j)]
  · rw [if_neg hj]
    have h2 : 2 * (j / 2) + 1 = j := by omega
    rw [h2]
    have h3 : 2 * (j / 2) = j - 1 := by omega
    rw [h3]
    rw [Nat.add_mul_div_left _ _ (by norm_num : (0:ℕ) < 2 ^ 32),
        Nat.div_eq_of_lt (hw (j - 1))]
    omega

theorem pack32to64_words32of64 (buf : ℕ → ℕ) (_hbuf : ∀ k, buf k < 2 ^ 64) :
    ∀ k, pack32to64 (words32of64 buf) k = buf k := by
  intro k
  unfold pack32to64 words32of64
  have he : (2 * k) % 2 = 0 := by omega
  have ho : ¬((2 * k + 1) % 2 = 0) := by omega
  rw [if_pos he, if_neg ho]
  have h1 : 2 * k / 2 = k := by omega
  have h2 : (2 * k + 1) / 2 = k := by omega
  rw [h1, h2, Nat.mod_add_div]

/-- C2: for every supported element width (8/16/32/64-bit integers and the
32/64-bit XOR float/double variants), every `length0` and `length1`, and
every buffer of `W`-bit element patterns, applying the forward Delta2D
transform and then the inverse returns the buffer bit-exactly, integer
arithmetic being taken modulo `2^W` (two's-complement wrap). -/
theorem delta2d_forward_then_inverse_is_identity :
    ∀ (length0 length1 : ℕ) (g : ℕ → ℕ),
      (∀ j, delta2d_decode8 length0 length1
          (delta2d_encode8 length0 length1 (fun j => g j % 2 ^ 8)) j = g j % 2 ^ 8)
    ∧ (∀ j, delta2d_decode16 length0 length1
          (delta2d_encode16 length0 length1 (fun j => g j % 2 ^ 16)) j = g j % 2 ^ 16)
    ∧ (∀ j, delta2d_decode32 length0 length1
          (delta2d_encode32 length0 length1 (fun j => g j % 2 ^ 32)) j = g j % 2 ^ 32)
    ∧ (∀ j, delta2d_decode64 length0 length1
          (delta2d_encode64 length0 length1 (fun j => g j % 2 ^ 64)) j = g j % 2 ^ 64)
    ∧ (∀ j, delta2d_decode_xor length0 length1
          (delta2d_encode_xor length0 length1 (fun j => g j % 2 ^ 32)) j = g j % 2 ^ 32)
    ∧ (∀ j, delta2d_decode_xor_double length0 length1
          (delta2d_encode_xor_double length0 length1 (fun j => g j % 2 ^ 64)) j = g j % 2 ^ 64) := by
  intro length0 length1 g
  have hmod : ∀ (W : ℕ) (j : ℕ), g j % 2 ^ W < 2 ^ W :=
    fun W j => Nat.mod_lt _ (Nat.pos_pow_of_pos W (by norm_num))
  have hint : ∀ W : ℕ, ∀ j, delta2dDecodeAux (add_u W) length1 (length0 - 1)
      (delta2dEncodeAux (sub_u W) length1 (length0 - 1) (fun j => g j % 2 ^ W)) j = g j % 2 ^ W := by
    intro W
    exact delta2d_aux_roundtrip (sub_u W) (add_u W) (· < 2 ^ W)
      (fun a b _ _ => sub_u_lt W a b)
      (fun a b ha _ => add_u_sub_u W a b ha)
      length1 (length0 - 1) _ (hmod W)
  have hxor32 : ∀ (buf : ℕ → ℕ), (∀ j, buf j < 2 ^ 32) →
      ∀ j, delta2dDecodeAux Nat.xor length1 (length0 - 1)
        (delta2dEncodeAux Nat.xor length1 (length0 - 1) buf) j = buf j := by
    intro buf hbuf
    exact delta2d_aux_roundtrip Nat.xor Nat.xor (· < 2 ^ 32)
      (fun a b ha hb => Nat.xor_lt_two_pow ha hb)
      (fun a b _ _ => Nat.xor_cancel_right b a)
      length1 (length0 - 1) buf hbuf
  refine ⟨?_, ?_, ?_, ?_, ?_, ?_⟩
  · intro j
    unfold delta2d_decode8 delta2d_encode8
    split
    · rfl
    · exact hint 8 j
  · intro j
    unfold delta2d_decode16 delta2d_encode16
    split
    · rfl
    · exact hint 16 j
  · intro j
    unfold delta2d_decode32 delta2d_encode32
    split
    · rfl
    · exact hint 32 j
  · intro j
    unfold delta2d_decode64 delta2d_encode64
    split
    · rfl
    · exact hint 64 j
  · intro j
    unfold delta2d_decode_xor delta2d_encode_xor
    split
    · rfl
    · exact hxor32 _ (hmod 32) j
  · intro j
    unfold delta2d_decode_xor_double delta2d_encode_xor_double
    split
    · rfl
    · have hw : ∀ j, words32of64 (fun j => g j % 2 ^ 64) j < 2 ^ 32 :=
        words32of64_lt _ (hmod 64)
      have hencw : ∀ j, delta2dEncodeAux Nat.xor length1 (length0 - 1)
          (words32of64 (fun j => g j % 2 ^ 64)) j < 2 ^ 32 :=
        delta2dEncodeAux_preserves Nat.xor (· < 2 ^ 32)
          (fun a b ha hb => Nat.xor_lt_two_pow ha hb) length1 (length0 - 1) _ hw
      have hup : words32of64 (pack32to64 (delta2dEncodeAux Nat.xor length1 (length0 - 1)
            (words32of64 (fun j => g j % 2 ^ 64))))
          = delta2dEncodeAux Nat.xor length1 (length0 - 1) (words32of64 (fun j => g j % 2 ^ 64)) :=
        funext (words32of64_pack32to64 _ hencw)
      rw [hup]
      have hrt : delta2dDecodeAux Nat.xor length1 (length0 - 1)
            (delta2dEncodeAux Nat.xor length1 (length0 - 1) (words32of64 (fun j => g j % 2 ^ 64)))
          = words32of64 (fun j => g j % 2 ^ 64) :=
        funext (hxor32 _ hw)
      rw [hrt]
      exact pack32to64_words32of64 _ (hmod 64) j

/-- Concrete four-element buffer of 64-bit double bit patterns used to
exhibit the behaviour of `delta2d_encode_xor_double`. -/
def xorDoubleProbe : ℕ → ℕ := fun j => j + 1

/-- C4: evaluation of `delta2d_encode_xor_double` on the concrete 2×2
buffer of double bit patterns `[1, 2, 3, 4]`.  The claimed behaviour
(64-bit XOR of each row-1 element with the row-0 element above it, row 0
untouched) would give `[1, 2, 2, 6]`; the code's 32-bit `int*` view gives
`[1, 3, 3, 4]` — it XORs the halves of first-row element 1 with element 0
and leaves row 1 untouched.  (With `length1 = 2` the two word-level XORs
combine to a full 64-bit XOR of element 1 with element 0 on either
endianness, so this divergence is endianness-independent.) -/
theorem delta2d_encode_xor_double_is_not_64bit_row_xor :
    (delta2d_encode_xor_double 2 2 xorDoubleProbe 0 = 1
      ∧ delta2d_encode_xor_double 2 2 xorDoubleProbe 1 = 3
      ∧ delta2d_encode_xor_double 2 2 xorDoubleProbe 2 = 3
      ∧ delta2d_encode_xor_double 2 2 xorDoubleProbe 3 = 4)
    ∧ (delta2d_encode_xor_double_spec 2 2 xorDoubleProbe 0 = 1
      ∧ delta2d_encode_xor_double_spec 2 2 xorDoubleProbe 1 = 2
      ∧ delta2d_encode_xor_double_spec 2 2 xorDoubleProbe 2 = 2
      ∧ delta2d_encode_xor_double_spec 2 2 xorDoubleProbe 3 = 6)
    ∧ delta2d_encode_xor_double 2 2 xorDoubleProbe 2
        ≠ delta2d_encode_xor_double_spec 2 2 xorDoubleProbe 2 := by
  refine ⟨⟨?_, ?_, ?_, ?_⟩, ⟨?_, ?_, ?_, ?_⟩, ?_⟩ <;> decide

/-! ## om_common.c — float model, quantisers and copy stages

C `float`/`double` values are modelled by `F := Option ℚ` (`none` = NaN,
`some q` = the finite value `q`); see the header comment for the
conventions.  All eleven copy/quantise stages take
`(length, scale_factor, add_offset, src, dst)` and process `length`
elements contiguously, leaving `dst` unchanged beyond `length`. -/

/-- The float model: `none` is NaN, `some q` a finite value. -/
def F : Type := Option ℚ

instance : DecidableEq F := by unfold F; infer_instance

/-- Float multiplication: NaN-propagating, exact on finite values. -/
def Fmul : F → F → F
  | some a, some b => some (a * b)
  | _, _ => none

/-- Float addition: NaN-propagating, exact on finite values. -/
def Fadd : F → F → F
  | some a, some b => some (a + b)
  | _, _ => none

/-- Float subtraction: NaN-propagating, exact on finite values. -/
def Fsub : F → F → F
  | some a, some b => some (a - b)
  | _, _ => none

/-- Float division: NaN-propagating; division by zero (C gives ±inf or
NaN, neither of which is a finite value) is modelled as `none`. -/
def Fdiv : F → F → F
  | some a, some b => if b = 0 then none else some (a / b)
  | _, _ => none

/-- C `fminf`/`fmin`: if one operand is NaN the other is returned. -/
def fminf : F → F → F
  | none, y => y
  | some a, none => some a
  | some a, some b => some (min a b)

/-- C `fmaxf`/`fmax`: if one operand is NaN the other is returned. -/
def fmaxf : F → F → F
  | none, y => y
  | some a, none => some a
  | some a, some b => some (max a b)

/-- C `round`/`roundf` on a finite value: round half away from zero. -/
def roundQ (q : ℚ) : ℤ :=
  if 0 ≤ q then ⌊q + 1/2⌋ else -⌊-q + 1/2⌋

/-- C `round`/`roundf` as a float-to-float map (NaN-propagating). -/
def roundf : F → F
  | none => none
  | some q => some ((roundQ q : ℤ) : ℚ)

/-- Truncation toward zero of a finite value (the C float→int cast). -/
def truncQ (q : ℚ) : ℤ :=
  if 0 ≤ q then ⌊q⌋ else -⌊-q⌋

/-- C cast of a float to an integer type with range `[lo, hi]`: truncate
toward zero; undefined behaviour (`none`) if the truncated value does not
fit, or if the operand is NaN. -/
def castToInt (lo hi : ℤ) : F → Option ℤ
  | none => none
  | some q => if lo ≤ truncQ q ∧ truncQ q ≤ hi then some (truncQ q) else none

/-- `om_common_copy_float_to_int16` from om_common.c.
`INT16_MIN`/`INT16_MAX` convert to float exactly (−32768 / 32767). -/
def om_common_copy_float_to_int16 (length : ℕ) (scale_factor add_offset : F)
    (src : ℕ → F) (dst : ℕ → Option ℤ) : ℕ → Option ℤ :=
  fun i =>
    if i < length then
      match src i with
      | none => some 32767
      | some val =>
          let scaled := Fadd (Fmul (some val) scale_factor) add_offset
          let clamped := fmaxf (some (-32768)) (fminf (some 32767) (roundf scaled))
          castToInt (-32768) 32767 clamped
    else dst i

/-- `om_common_copy_float_to_int32` from om_common.c.  The C clamp bounds
are `(float)INT32_MIN` and `(float)INT32_MAX`; under round-to-nearest
these conversions give exactly `-2^31` and `2^31` (note: `2^31`, one more
than `INT32_MAX = 2^31 - 1`, since `INT32_MAX` is not representable as a
`float`). -/
def om_common_copy_float_to_int32 (length : ℕ) (scale_factor add_offset : F)
    (src : ℕ → F) (dst : ℕ → Option ℤ) : ℕ → Option ℤ :=
  fun i =>
    if i < length then
      match src i with
      | none => some 2147483647
      | some val =>
          let scaled := Fadd (Fmul (some val) scale_factor) add_offset
          let clamped := fmaxf (some (-2147483648)) (fminf (some 2147483648) (roundf scaled))
          castToInt (-2147483648) 2147483647 clamped
    else dst i

/-- `om_common_copy_double_to_int64` from om_common.c.  The C clamp bounds
are `(double)INT64_MIN = -2^63` (exact) and `(double)INT64_MAX = 2^63`
(rounded up from `2^63 - 1`, which is not representable as a `double`).
The float `scale_factor`/`add_offset` convert to double exactly. -/
def om_common_copy_double_to_int64 (length : ℕ) (scale_factor add_offset : F)
    (src : ℕ → F) (dst : ℕ → Option ℤ) : ℕ → Option ℤ :=
  fun i =>
    if i < length then
      match src i with
      | none => some 9223372036854775807
      | some val =>
          let scaled := Fadd (Fmul (some val) scale_factor) add_offset
          let clamped := fmaxf (some (-9223372036854775808))
            (fminf (some 9223372036854775808) (roundf scaled))
          castToInt (-9223372036854775808) 9223372036854775807 clamped
    else dst i

/-- `om_common_copy_float_to_int16_log10` from om_common.c.  `log10f` is
the C library function, passed as a parameter of the model (it may return
NaN, e.g. for negative arguments).  The `add_offset` parameter is unused,
exactly as in the C source. -/
def om_common_copy_float_to_int16_log10 (log10f : F → F) (length : ℕ)
    (scale_factor add_offset : F) (src : ℕ → F) (dst : ℕ → Option ℤ) : ℕ → Option ℤ :=
  fun i =>
    if i < length then
      match src i with
      | none => some 32767
      | some val =>
          let scaled := Fmul (log10f (Fadd (some 1) (some val))) scale_factor
          let clamped := fmaxf (some (-32768)) (fminf (some 32767) (roundf scaled))
          castToInt (-32768) 32767 clamped
    else dst i

/-- `om_common_copy_int16_to_float` from om_common.c (`INT16_MAX` is the
NaN sentinel; otherwise `(float)val / scale_factor - add_offset`). -/
def om_common_copy_int16_to_float (length : ℕ) (scale_factor add_offset : F)
    (src : ℕ → ℤ) (dst : ℕ → F) : ℕ → F :=
  fun i =>
    if i < length then
      if src i = 32767 then none
      else Fsub (Fdiv (some ((src i : ℤ) : ℚ)) scale_factor) add_offset
    else dst i

/-- `om_common_copy_int32_to_float` from om_common.c. -/
def om_common_copy_int32_to_float (length : ℕ) (scale_factor add_offset : F)
    (src : ℕ → ℤ) (dst : ℕ → F) : ℕ → F :=
  fun i =>
    if i < length then
      if src i = 2147483647 then none
      else Fsub (Fdiv (some ((src i : ℤ) : ℚ)) scale_factor) add_offset
    else dst i

/-- `om_common_copy_int64_to_double` from om_common.c. -/
def om_common_copy_int64_to_double (length : ℕ) (scale_factor add_offset : F)
    (src : ℕ → ℤ) (dst : ℕ → F) : ℕ → F :=
  fun i =>
    if i < length then
      if src i = 9223372036854775807 then none
      else Fsub (Fdiv (some ((src i : ℤ) : ℚ)) scale_factor) add_offset
    else dst i

/-- `om_common_copy_int16_to_float_log10` from om_common.c: sentinel →
NaN, otherwise `powf(10, (float)val / scale_factor) - 1`; `powf` is the C
library function, passed as a parameter.  `add_offset` is unused, exactly
as in the C source. -/
def om_common_copy_int16_to_float_log10 (powf : F → F → F) (length : ℕ)
    (scale_factor add_offset : F) (src : ℕ → ℤ) (dst : ℕ → F) : ℕ → F :=
  fun i =>
    if i < length then
      if src i = 32767 then none
      else Fsub (powf (some 10) (Fdiv (some ((src i : ℤ) : ℚ)) scale_factor)) (some 1)
    else dst i

/-! The straight copies are modelled at byte granularity: copying `length`
elements of `k` bytes elementwise is the same as copying the first
`k * length` bytes of the buffer (within one element the bytes keep their
positions, so this view is endianness-neutral).  The `scale_factor` and
`add_offset` parameters are taken and ignored, as in C. -/

/-- `om_common_copy8` from om_common.c (byte view of the buffers). -/
def om_common_copy8 (length : ℕ) (scale_factor add_offset : F)
    (src dst : ℕ → ℕ) : ℕ → ℕ :=
  fun j => if j < 1 * length then src j else dst j

/-- `om_common_copy16` from om_common.c (byte view of the buffers). -/
def om_common_copy16 (length : ℕ) (scale_factor add_offset : F)
    (src dst : ℕ → ℕ) : ℕ → ℕ :=
  fun j => if j < 2 * length then src j else dst j

/-- `om_common_copy32` from om_common.c (byte view of the buffers): copies
`length` 32-bit elements, i.e. the first `4 * length` bytes. -/
def om_common_copy32 (length : ℕ) (scale_factor add_offset : F)
    (src dst : ℕ → ℕ) : ℕ → ℕ :=
  fun j => if j < 4 * length then src j else dst j

/-- `om_common_copy64` from om_common.c (byte view of the buffers): copies
`length` 64-bit elements, i.e. the first `8 * length` bytes. -/
def om_common_copy64 (length : ℕ) (scale_factor add_offset : F)
    (src dst : ℕ → ℕ) : ℕ → ℕ :=
  fun j => if j < 8 * length then src j else dst j

/-- Read the 64-bit element `k` of a little-endian byte buffer. -/
def readElem64 (buf : ℕ → ℕ) (k : ℕ) : ℕ :=
  buf (8 * k) + 256 * buf (8 * k + 1) + 256 ^ 2 * buf (8 * k + 2) + 256 ^ 3 * buf (8 * k + 3)
    + 256 ^ 4 * buf (8 * k + 4) + 256 ^ 5 * buf (8 * k + 5)
    + 256 ^ 6 * buf (8 * k + 6) + 256 ^ 7 * buf (8 * k + 7)

/-! ## om_encoder.c — configuration (om_encoder_init)

`OmDataType_t` and `OmCompression_t` are C enums whose numeric values are
fixed by the file format; the header defining them is not part of the
excerpted sources, so the values are modelled from the spec (§6.1):
`OmDataType` is ordered `None=0, Int8=1, …, StringArray=12,
Int8Array=13, …, DoubleArray=22` and `OmCompression` is
`PforDelta2D_Int16=0, FpxXor2D=1, PforDelta2D=2,
PforDelta2D_Int16_Log=3`.  Both are modelled as raw `ℕ` values so that
out-of-enum inputs (which the C `switch` default cases handle) are
expressible.  The C `switch` statements become if-else chains on those
values, and the function-pointer fields of `OmEncoder_t` become tags
(one constructor per C function whose address is taken). -/

def DATA_TYPE_INT8_ARRAY : ℕ := 13
def DATA_TYPE_UINT8_ARRAY : ℕ := 14
def DATA_TYPE_INT16_ARRAY : ℕ := 15
def DATA_TYPE_UINT16_ARRAY : ℕ := 16
def DATA_TYPE_INT32_ARRAY : ℕ := 17
def DATA_TYPE_UINT32_ARRAY : ℕ := 18
def DATA_TYPE_INT64_ARRAY : ℕ := 19
def DATA_TYPE_UINT64_ARRAY : ℕ := 20
def DATA_TYPE_FLOAT_ARRAY : ℕ := 21
def DATA_TYPE_DOUBLE_ARRAY : ℕ := 22

def COMPRESSION_PFOR_DELTA2D_INT16 : ℕ := 0
def COMPRESSION_FPX_XOR2D : ℕ := 1
def COMPRESSION_PFOR_DELTA2D : ℕ := 2
def COMPRESSION_PFOR_DELTA2D_INT16_LOGARITHMIC : ℕ := 3

/-- `OmError_t` from om_common.h (values per spec §6.1). -/
inductive OmError where
  | ERROR_OK
  | ERROR_INVALID_COMPRESSION_TYPE
  | ERROR_INVALID_DATA_TYPE
  | ERROR_OUT_OF_BOUND_READ
  | ERROR_NOT_AN_OM_FILE
  | ERROR_DEFLATED_SIZE_MISMATCH
deriving DecidableEq

/-- Tags for the functions a `om_compress_copy_callback_t` pointer can
hold in om_encoder.c. -/
inductive OmCopyCallback where
  | om_common_copy8
  | om_common_copy16
  | om_common_copy32
  | om_common_copy64
  | om_common_copy_float_to_int16
  | om_common_copy_float_to_int32
  | om_common_copy_double_to_int64
  | om_common_copy_float_to_int16_log10
deriving DecidableEq

/-- Tags for the functions a `om_compress_filter_callback_t` pointer can
hold in om_encoder.c. -/
inductive OmFilterCallback where
  | delta2d_encode8
  | delta2d_encode16
  | delta2d_encode32
  | delta2d_encode64
  | delta2d_encode_xor
  | delta2d_encode_xor_double
deriving DecidableEq

/-- Tags for the functions a `om_compress_callback_t` pointer can hold in
om_encoder.c (the external entropy coders). -/
inductive OmCompressCallback where
  | p4nzenc8
  | p4ndenc8
  | p4nzenc128v16
  | p4ndenc128v16
  | p4nzenc128v32
  | p4ndenc128v32
  | p4nzenc64
  | p4ndenc64
  | om_common_compress_fpxenc32
  | om_common_compress_fpxenc64
deriving DecidableEq

/-- The `OmEncoder_t` record (om_encoder.h): the fields om_encoder_init
writes. -/
structure OmEncoder where
  scale_factor : F
  add_offset : F
  dimensions : ℕ → ℕ
  chunks : ℕ → ℕ
  dimension_count : ℕ
  bytes_per_element : ℕ
  bytes_per_element_compressed : ℕ
  compress_copy_callback : OmCopyCallback
  compress_filter_callback : OmFilterCallback
  compress_callback : OmCompressCallback

/-- The second `switch (compression)` of `om_encoder_init` (om_encoder.c
lines 59-150), applied to the record as left by the data-type switch. -/
def om_encoder_init_compression_switch (e : OmEncoder) (compression data_type : ℕ) :
    OmError × OmEncoder :=
  if compression = COMPRESSION_PFOR_DELTA2D_INT16 then
    if data_type ≠ DATA_TYPE_FLOAT_ARRAY then (OmError.ERROR_INVALID_DATA_TYPE, e)
    else (OmError.ERROR_OK, { e with
      bytes_per_element := 4, bytes_per_element_compressed := 2,
      compress_copy_callback := .om_common_copy_float_to_int16,
      compress_filter_callback := .delta2d_encode16,
      compress_callback := .p4nzenc128v16 })
  else if compression = COMPRESSION_FPX_XOR2D then
    if data_type = DATA_TYPE_FLOAT_ARRAY then
      (OmError.ERROR_OK, { e with
        compress_callback := .om_common_compress_fpxenc32,
        compress_filter_callback := .delta2d_encode_xor })
    else if data_type = DATA_TYPE_DOUBLE_ARRAY then
      (OmError.ERROR_OK, { e with
        compress_callback := .om_common_compress_fpxenc64,
        compress_filter_callback := .delta2d_encode_xor_double })
    else (OmError.ERROR_INVALID_DATA_TYPE, e)
  else if compression = COMPRESSION_PFOR_DELTA2D then
    if data_type = DATA_TYPE_INT8_ARRAY then
      (OmError.ERROR_OK, { e with
        compress_callback := .p4nzenc8, compress_filter_callback := .delta2d_encode8 })
    else if data_type = DATA_TYPE_UINT8_ARRAY then
      (OmError.ERROR_OK, { e with
        compress_callback := .p4ndenc8, compress_filter_callback := .delta2d_encode8 })
    else if data_type = DATA_TYPE_INT16_ARRAY then
      (OmError.ERROR_OK, { e with
        compress_callback := .p4nzenc128v16, compress_filter_callback := .delta2d_encode16 })
    else if data_type = DATA_TYPE_UINT16_ARRAY then
      (OmError.ERROR_OK, { e with
        compress_callback := .p4ndenc128v16, compress_filter_callback := .delta2d_encode16 })
    else if data_type = DATA_TYPE_INT32_ARRAY then
      (OmError.ERROR_OK, { e with
        compress_callback := .p4nzenc128v32, compress_filter_callback := .delta2d_encode32 })
    else if data_type = DATA_TYPE_UINT32_ARRAY then
      (OmError.ERROR_OK, { e with
        compress_callback := .p4ndenc128v32, compress_filter_callback := .delta2d_encode32 })
    else if data_type = DATA_TYPE_INT64_ARRAY then
      (OmError.ERROR_OK, { e with
        compress_callback := .p4nzenc64, compress_filter_callback := .delta2d_encode64 })
    else if data_type = DATA_TYPE_UINT64_ARRAY then
      (OmError.ERROR_OK, { e with
        compress_callback := .p4ndenc64, compress_filter_callback := .delta2d_encode64 })
    else if data_type = DATA_TYPE_FLOAT_ARRAY then
      (OmError.ERROR_OK, { e with
        compress_copy_callback := .om_common_copy_float_to_int32,
        compress_filter_callback := .delta2d_encode32,
        compress_callback := .p4nzenc128v32 })
    else if data_type = DATA_TYPE_DOUBLE_ARRAY then
      (OmError.ERROR_OK, { e with
        compress_copy_callback := .om_common_copy_double_to_int64,
        compress_filter_callback := .delta2d_encode64,
        compress_callback := .p4nzenc64 })
    else (OmError.ERROR_INVALID_DATA_TYPE, e)
  else if compression = COMPRESSION_PFOR_DELTA2D_INT16_LOGARITHMIC then
    if data_type ≠ DATA_TYPE_FLOAT_ARRAY then (OmError.ERROR_INVALID_DATA_TYPE, e)
    else (OmError.ERROR_OK, { e with
      bytes_per_element := 4, bytes_per_element_compressed := 2,
      compress_copy_callback := .om_common_copy_float_to_int16_log10,
      compress_filter_callback := .delta2d_encode16,
      compress_callback := .p4nzenc128v16 })
  else (OmError.ERROR_INVALID_COMPRESSION_TYPE, e)

/-- `om_encoder_init` from om_encoder.c: writes `scale_factor`,
`add_offset`, `dimensions`, `chunks`, `dimension_count` into the record
first, then runs the data-type switch (element sizes and copy callback —
note that the 64-bit branch assigns `om_common_copy32`, exactly as the C
source does at line 51), then the compression switch. -/
def om_encoder_init (encoder : OmEncoder) (scale_factor add_offset : F)
    (compression data_type : ℕ) (dimensions chunks : ℕ → ℕ)
    (dimension_count : ℕ) : OmError × OmEncoder :=
  let e := { encoder with
    scale_factor := scale_factor, add_offset := add_offset,
    dimensions := dimensions, chunks := chunks,
    dimension_count := dimension_count }
  if data_type = DATA_TYPE_INT8_ARRAY ∨ data_type = DATA_TYPE_UINT8_ARRAY then
    om_encoder_init_compression_switch
      { e with
        bytes_per_element := 1, bytes_per_element_compressed := 1,
        compress_copy_callback := .om_common_copy8 } compression data_type
  else if data_type = DATA_TYPE_INT16_ARRAY ∨ data_type = DATA_TYPE_UINT16_ARRAY then
    om_encoder_init_compression_switch
      { e with
        bytes_per_element := 2, bytes_per_element_compressed := 2,
        compress_copy_callback := .om_common_copy16 } compression data_type
  else if data_type = DATA_TYPE_INT32_ARRAY ∨ data_type = DATA_TYPE_UINT32_ARRAY
      ∨ data_type = DATA_TYPE_FLOAT_ARRAY then
    om_encoder_init_compression_switch
      { e with
        bytes_per_element := 4, bytes_per_element_compressed := 4,
        compress_copy_callback := .om_common_copy32 } compression data_type
  else if data_type = DATA_TYPE_INT64_ARRAY ∨ data_type = DATA_TYPE_UINT64_ARRAY
      ∨ data_type = DATA_TYPE_DOUBLE_ARRAY then
    om_encoder_init_compression_switch
      { e with
        bytes_per_element := 8, bytes_per_element_compressed := 8,
        compress_copy_callback := .om_common_copy32 } compression data_type
  else (OmError.ERROR_INVALID_DATA_TYPE, e)

/-! ## om_encoder.c — om_encoder_compress_chunk

The gather engine is modelled at element granularity: the source array
and the chunk buffer are functions `ℕ → ℕ` from element index to element
value, and the configured copy callback is abstracted by its per-element
action `copyElem : ℕ → ℕ` (every callback installed by `om_encoder_init`
processes its `length` elements independently and contiguously).  All
`uint64_t` arithmetic of the C source is performed with the wrapping
helpers `add64`/`sub64`/`mul64`; C `/` and `%` agree with `Nat` `/` and
`%` on the reduced values that arise.  The `while (true)` loop is given
explicit fuel; `assert` becomes an explicit check whose failure is the
distinguished result `assertFail`.  The final
`compress_filter_callback`/`compress_callback` stage (delta2d plus the
external entropy coder) is a deterministic function of the completed
chunk buffer, `lengthInChunk` and `lengthLast`, so the model stops at the
`ok` result carrying exactly those three values. -/

/-- `divide_rounded_up` from om_common.h (modelled from the spec:
`nChunksInThisDimension = ⌈dimension / chunk⌉`, §4.4 step 1). -/
def divide_rounded_up (a b : ℕ) : ℕ := (a + b - 1) / b

/-- Result of a modelled `om_encoder_compress_chunk` run. -/
inductive ChunkResult where
  | ok (chunkBuffer : ℕ → ℕ) (lengthInChunk lengthLast : ℕ)
  | assertFail
  | outOfFuel

/-- Whether a run aborted on a failed `assert`. -/
def ChunkResult.isAssertFail : ChunkResult → Bool
  | .assertFail => true
  | _ => false

/-- Whether a run completed and returned. -/
def ChunkResult.isOk : ChunkResult → Bool
  | .ok _ _ _ => true
  | _ => false

/-- Element `j` of the completed chunk buffer, when the run completed. -/
def ChunkResult.bufAt : ChunkResult → ℕ → Option ℕ
  | .ok buf _ _, j => some (buf j)
  | _, _ => none

/-- State accumulated by the first `for` loop of
`om_encoder_compress_chunk` (om_encoder.c lines 237-277). -/
structure ChunkInitState where
  rollingMultiply : ℕ
  rollingMultiplyChunkLength : ℕ
  rollingMultiplyTargetCube : ℕ
  readCoordinate : ℕ
  linearReadCount : ℕ
  linearRead : Bool
  lengthLast : ℕ

/-- One iteration (axis `i`) of the first `for` loop of
`om_encoder_compress_chunk`; `none` models a failed `assert` (lines
261-262). -/
def compressChunkInitStep (dimension_count : ℕ) (dimensions chunks : ℕ → ℕ)
    (arrayDimensions arrayOffset arrayCount : ℕ → ℕ)
    (chunkIndex chunkIndexOffsetInThisArray : ℕ)
    (i : ℕ) (s : ChunkInitState) : Option ChunkInitState :=
  let dimension := dimensions i
  let chunk := chunks i
  let nChunksInThisDimension := divide_rounded_up dimension chunk
  let c0 := (chunkIndex / s.rollingMultiply) % nChunksInThisDimension
  let c0Offset := (chunkIndexOffsetInThisArray / s.rollingMultiply) % nChunksInThisDimension
  let length0 := sub64 (min (mul64 (add64 c0 1) chunk) dimension) (mul64 c0 chunk)
  let lengthLast := if i = dimension_count - 1 then length0 else s.lengthLast
  let readCoordinate := add64 s.readCoordinate
    (mul64 s.rollingMultiplyTargetCube (add64 (mul64 c0Offset chunk) (arrayOffset i)))
  if length0 ≤ arrayCount i ∧ length0 ≤ arrayDimensions i then
    let lin1 := if i = dimension_count - 1
        ∧ ¬(arrayCount i = length0 ∧ arrayDimensions i = length0)
      then (length0, false) else (s.linearReadCount, s.linearRead)
    let lin2 := if lin1.2 ∧ arrayCount i = length0 ∧ arrayDimensions i = length0
      then (mul64 lin1.1 length0, lin1.2) else (lin1.1, false)
    some {
      rollingMultiply := mul64 s.rollingMultiply nChunksInThisDimension,
      rollingMultiplyChunkLength := mul64 s.rollingMultiplyChunkLength length0,
      rollingMultiplyTargetCube := mul64 s.rollingMultiplyTargetCube (arrayDimensions i),
      readCoordinate := readCoordinate,
      linearReadCount := lin2.1,
      linearRead := lin2.2,
      lengthLast := lengthLast }
  else none

/-- The first `for` loop of `om_encoder_compress_chunk`: axes are
processed from the innermost (`i = dimension_count - 1`, first) to the
outermost (`i = 0`, last); `compressChunkInitLoop n` processes axes
`n-1, n-2, …, 0`. -/
def compressChunkInitLoop (dimension_count : ℕ) (dimensions chunks : ℕ → ℕ)
    (arrayDimensions arrayOffset arrayCount : ℕ → ℕ)
    (chunkIndex chunkIndexOffsetInThisArray : ℕ) :
    ℕ → ChunkInitState → Option ChunkInitState
  | 0, s => some s
  | n + 1, s =>
    match compressChunkInitStep dimension_count dimensions chunks
        arrayDimensions arrayOffset arrayCount
        chunkIndex chunkIndexOffsetInThisArray n s with
    | none => none
    | some s' => compressChunkInitLoop dimension_count dimensions chunks
        arrayDimensions arrayOffset arrayCount
        chunkIndex chunkIndexOffsetInThisArray n s'

/-- Outcome of the inner `for` loop of the main `while` loop (om_encoder.c
lines 300-328): either the chunk is complete (`finish`, the C `return`)
or iteration continues with updated `readCoordinate` and
`linearReadCount` (`next`, the C `break`). -/
inductive OdoStep where
  | finish
  | next (readCoordinate linearReadCount : ℕ)

/-- The inner (odometer) `for` loop of `om_encoder_compress_chunk`.  The
first argument is `i + 1` for the axis `i` being processed, so the
initial call passes `dimension_count` and the loop walks axes
`dimension_count - 1, …, 0`; `rollingMultiplyTargetCube`,
`linearReadCount` and `linearRead` restart at `1, 1, true` (lines
296-298). -/
def compressChunkOdo (dimension_count : ℕ) (chunks : ℕ → ℕ)
    (arrayDimensions arrayOffset arrayCount : ℕ → ℕ) :
    ℕ → ℕ → ℕ → ℕ → Bool → OdoStep
  | 0, readCoordinate, _rollingMultiplyTargetCube, linearReadCount, _linearRead =>
    OdoStep.next readCoordinate linearReadCount
  | i + 1, readCoordinate, rollingMultiplyTargetCube, linearReadCount, linearRead =>
    let chunk := chunks i
    let qPos := (sub64 ((readCoordinate / rollingMultiplyTargetCube) % arrayDimensions i)
      (arrayOffset i)) / chunk
    let length0 := sub64 (min (mul64 (add64 qPos 1) chunk) (arrayCount i)) (mul64 qPos chunk)
    let readCoordinate := add64 readCoordinate rollingMultiplyTargetCube
    let lin1 := if i = dimension_count - 1
        ∧ ¬(arrayCount i = length0 ∧ arrayDimensions i = length0)
      then (length0, false) else (linearReadCount, linearRead)
    let lin2 := if lin1.2 ∧ arrayCount i = length0 ∧ arrayDimensions i = length0
      then (mul64 lin1.1 length0, lin1.2) else (lin1.1, false)
    let q0 := (sub64 ((readCoordinate / rollingMultiplyTargetCube) % arrayDimensions i)
      (arrayOffset i)) % chunks i
    if q0 ≠ 0 ∧ q0 ≠ length0 then OdoStep.next readCoordinate lin2.1
    else
      let readCoordinate := sub64 readCoordinate (mul64 length0 rollingMultiplyTargetCube)
      let rollingMultiplyTargetCube := mul64 rollingMultiplyTargetCube (arrayDimensions i)
      if i = 0 then OdoStep.finish
      else compressChunkOdo dimension_count chunks arrayDimensions arrayOffset arrayCount
        i readCoordinate rollingMultiplyTargetCube lin2.1 lin2.2

/-- The main `while (true)` loop of `om_encoder_compress_chunk` (lines
281-329), with explicit fuel.  Each iteration checks the two asserts,
invokes the copy callback on `linearReadCount` elements
(`chunkBuffer[writeCoordinate + k] = copyElem (array (readCoordinate + k))`
for `k < linearReadCount`), advances the coordinates, and runs the
odometer. -/
def compressChunkLoop (dimension_count : ℕ) (chunks : ℕ → ℕ)
    (arrayDimensions arrayOffset arrayCount : ℕ → ℕ)
    (copyElem : ℕ → ℕ) (array : ℕ → ℕ)
    (arrayTotalCount lengthInChunk lengthLast : ℕ) :
    ℕ → ℕ → ℕ → ℕ → (ℕ → ℕ) → ChunkResult
  | 0, _, _, _, _ => ChunkResult.outOfFuel
  | fuel + 1, readCoordinate, writeCoordinate, linearReadCount, chunkBuffer =>
    if readCoordinate + linearReadCount ≤ arrayTotalCount
        ∧ writeCoordinate + linearReadCount ≤ lengthInChunk then
      let chunkBuffer' : ℕ → ℕ := fun j =>
        if writeCoordinate ≤ j ∧ j < writeCoordinate + linearReadCount
        then copyElem (array (readCoordinate + (j - writeCoordinate)))
        else chunkBuffer j
      let readCoordinate' := sub64 (add64 readCoordinate linearReadCount) 1
      let writeCoordinate' := add64 writeCoordinate linearReadCount
      match compressChunkOdo dimension_count chunks arrayDimensions arrayOffset arrayCount
          dimension_count readCoordinate' 1 1 true with
      | OdoStep.finish => ChunkResult.ok chunkBuffer' lengthInChunk lengthLast
      | OdoStep.next readCoordinate'' linearReadCount'' =>
        compressChunkLoop dimension_count chunks arrayDimensions arrayOffset arrayCount
          copyElem array arrayTotalCount lengthInChunk lengthLast
          fuel readCoordinate'' writeCoordinate' linearReadCount'' chunkBuffer'
    else ChunkResult.assertFail

/-- `arrayTotalCount` of `om_encoder_compress_chunk` (lines 232-235):
the product of the first `n` entries of `arrayDimensions`, accumulated
with wrapping `uint64_t` multiplication in ascending axis order. -/
def arrayTotalCountLoop (arrayDimensions : ℕ → ℕ) : ℕ → ℕ
  | 0 => 1
  | n + 1 => mul64 (arrayTotalCountLoop arrayDimensions n) (arrayDimensions n)

/-- `om_encoder_compress_chunk` from om_encoder.c.  Parameters
`dimension_count`, `dimensions`, `chunks` are the encoder configuration
fields, `copyElem` the per-element action of the configured
`compress_copy_callback`, and `fuel` bounds the number of `while`
iterations.  The result carries the completed chunk buffer together with
`lengthInChunk` and `lengthLast` (the compressed output bytes are the
deterministic image of these under the configured filter and entropy
callbacks). -/
def om_encoder_compress_chunk (dimension_count : ℕ) (dimensions chunks : ℕ → ℕ)
    (copyElem : ℕ → ℕ) (array : ℕ → ℕ)
    (arrayDimensions arrayOffset arrayCount : ℕ → ℕ)
    (chunkIndex chunkIndexOffsetInThisArray : ℕ)
    (chunkBuffer : ℕ → ℕ) (fuel : ℕ) : ChunkResult :=
  let arrayTotalCount := arrayTotalCountLoop arrayDimensions dimension_count
  match compressChunkInitLoop dimension_count dimensions chunks
      arrayDimensions arrayOffset arrayCount
      chunkIndex chunkIndexOffsetInThisArray dimension_count
      { rollingMultiply := 1, rollingMultiplyChunkLength := 1,
        rollingMultiplyTargetCube := 1, readCoordinate := 0,
        linearReadCount := 1, linearRead := true, lengthLast := 0 } with
  | none => ChunkResult.assertFail
  | some s =>
    compressChunkLoop dimension_count chunks arrayDimensions arrayOffset arrayCount
      copyElem array arrayTotalCount s.rollingMultiplyChunkLength s.lengthLast
      fuel s.readCoordinate 0 s.linearReadCount chunkBuffer

/-! ### Concrete runs of `om_encoder_compress_chunk`

The following inputs satisfy every documented precondition: the
configuration is valid, `arrayOffset[i] + arrayCount[i] ≤
arrayDimensions[i]` on every axis, the sub-region is chunk-aligned within
the full array, and `chunkIndex`/`chunkIndexOffsetInThisArray` address a
chunk lying inside the sub-region.  They share one trait: the sub-region
ends flush with the bounding box (`arrayOffset[i] + arrayCount[i] =
arrayDimensions[i]`) on an axis whose `arrayOffset[i]` is not a multiple
of `chunks[i]`.  After the last run of such an axis the odometer's
`(readCoordinate / M) % arrayDimensions[i]` wraps to the next row, the
`uint64_t` subtraction of `arrayOffset[i]` underflows, `q0` is neither
`0` nor `length0`, the carry is missed, and the loop continues past the
end of the chunk. -/

/-- C5 failing input: `dims=[2]`, `chunks=[2]`, `arrayDimensions=[3]`,
`arrayOffset=[1]`, `arrayCount=[2]`, `chunkIndex=0`,
`chunkIndexOffsetInThisArray=0` (one chunk covering the whole array,
supplied in a 3-element buffer at offset 1). -/
def assertProbeRun : ChunkResult :=
  om_encoder_compress_chunk 1 (fun _ => 2) (fun _ => 2) id (fun j => j)
    (fun _ => 3) (fun _ => 1) (fun _ => 2) 0 0 (fun _ => 999) 4

/-- C5: on the valid input `assertProbeRun` the loop invariant
`readCoordinate + linearReadCount ≤ product(arrayDimensions)` is violated
on the second `while` iteration and the assert fires (the model's
`assertFail`), contradicting the claim that no assertion ever fires.  The
first iteration correctly copies elements `1, 2`; the odometer then
computes `q0 = ((3 % 3) - 1) % 2 = (2^64 - 1) % 2 = 1`, which is neither
`0` nor `length0 = 2`, so the carry is missed, and the next iteration
checks `3 + 2 ≤ 3`. -/
theorem compress_chunk_assert_fires_on_valid_input :
    assertProbeRun.isAssertFail = true := by decide

def gatherDims : ℕ → ℕ := fun i => if i = 0 then 2 else 4
def gatherBufDims : ℕ → ℕ := fun i => if i = 0 then 2 else 10
def gatherOffset : ℕ → ℕ := fun i => if i = 0 then 0 else 6
def gatherCount : ℕ → ℕ := fun i => if i = 0 then 2 else 4

/-- C1 failing input, sub-region side: `dims=[2,4]`, `chunks=[2,4]` (one
chunk), source region of shape `[2,4]` stored in a `[2,10]` buffer at
offset `[0,6]`; the source array holds its own flat index at every
position, so the gathered values identify the coordinates read. -/
def gatherSubRun : ChunkResult :=
  om_encoder_compress_chunk 2 gatherDims gatherDims id (fun j => j)
    gatherBufDims gatherOffset gatherCount 0 0 (fun _ => 999) 8

/-- C1 stand-alone full-cube side: the same chunk, same element values,
with `arrayDimensions = arrayCount = [2,4]` and `arrayOffset = [0,0]`;
position `(r, c)` holds the value `r*10 + 6 + c`, the flat index that
position occupies in the `[2,10]` buffer of `gatherSubRun`. -/
def gatherFullRun : ChunkResult :=
  om_encoder_compress_chunk 2 gatherDims gatherDims id
    (fun j => (j / 4) * 10 + (6 + j % 4))
    gatherCount (fun _ => 0) gatherCount 0 0 (fun _ => 999) 8

/-- C1: the stand-alone full-cube run completes and gathers exactly the
chunk's elements in canonical row-major order (row 0 = buffer elements
`6..9`, row 1 = `16..19`), but the run on the same chunk presented as a
sub-region of the `[2,10]` bounding box does not produce that buffer: its
first iteration copies row 0 correctly, the odometer then misses the
row carry (`q0 = ((10 % 10) - 6) % 4 = 2`), the second iteration copies
buffer elements `10..13` instead of `16..19` into the chunk buffer, and
the third iteration aborts on the `writeCoordinate` assert — so the
sub-region result is not the full-cube result and the chunk buffer is not
filled with the chunk's elements. -/
theorem compress_chunk_subregion_differs_from_fullcube :
    gatherSubRun.isAssertFail = true
    ∧ gatherFullRun.isOk = true
    ∧ gatherFullRun.bufAt 0 = some 6
    ∧ gatherFullRun.bufAt 1 = some 7
    ∧ gatherFullRun.bufAt 2 = some 8
    ∧ gatherFullRun.bufAt 3 = some 9
    ∧ gatherFullRun.bufAt 4 = some 16
    ∧ gatherFullRun.bufAt 5 = some 17
    ∧ gatherFullRun.bufAt 6 = some 18
    ∧ gatherFullRun.bufAt 7 = some 19 := by
  refine ⟨?_, ?_, ?_, ?_, ?_, ?_, ?_, ?_, ?_, ?_⟩ <;> decide

/-! ### The 64-bit copy stage (claim C3) -/

/-- An arbitrary concrete pre-initialisation encoder record. -/
def probeEncoder : OmEncoder where
  scale_factor := none
  add_offset := none
  dimensions := fun _ => 0
  chunks := fun _ => 0
  dimension_count := 0
  bytes_per_element := 0
  bytes_per_element_compressed := 0
  compress_copy_callback := .om_common_copy64
  compress_filter_callback := .delta2d_encode8
  compress_callback := .p4nzenc8

/-- `om_encoder_init` on `(Int64Array, PforDelta2D)`. -/
def int64InitRun : OmError × OmEncoder :=
  om_encoder_init probeEncoder (some 1) (some 0)
    COMPRESSION_PFOR_DELTA2D DATA_TYPE_INT64_ARRAY (fun _ => 1) (fun _ => 1) 1

/-- Little-endian byte image of a single int64 element with value
`2^32` (byte 4 is `1`, all other bytes `0`). -/
def int64SrcBytes : ℕ → ℕ := fun j => if j = 4 then 1 else 0

/-- C3: for `data_type = Int64Array`, `compression = PforDelta2D`,
`om_encoder_init` succeeds but installs `om_common_copy32` (om_encoder.c
line 51) as the copy stage — not a 64-bit copy — so with `length = 1` the
copy transfers only the first `4` of the element's `8` bytes: the source
element `2^32` arrives as `0` (the upper four destination bytes, here
previously `0`, are never written). -/
theorem int64_copy_stage_is_32bit_copy :
    int64InitRun.1 = OmError.ERROR_OK
    ∧ int64InitRun.2.compress_copy_callback = OmCopyCallback.om_common_copy32
    ∧ int64InitRun.2.bytes_per_element = 8
    ∧ readElem64 int64SrcBytes 0 = 4294967296
    ∧ readElem64 (om_common_copy32 1 (some 1) (some 0) int64SrcBytes (fun _ => 0)) 0 = 0
    ∧ readElem64 (om_common_copy64 1 (some 1) (some 0) int64SrcBytes (fun _ => 0)) 0
        = 4294967296 := by
  refine ⟨?_, ?_, ?_, ?_, ?_, ?_⟩ <;> decide

/-! ### Error classification of om_encoder_init (claim C8) -/

/-- A payload-carrying array data type (`Int8Array = 13` through
`DoubleArray = 22`), the types the first switch of `om_encoder_init`
accepts. -/
def isPayloadArrayType (data_type : ℕ) : Prop :=
  13 ≤ data_type ∧ data_type ≤ 22

/-- One of the four known compression variants (values `0..3`). -/
def isKnownCompression (compression : ℕ) : Prop := compression ≤ 3

/-- Compatibility of a data type with a compression, as the claim states
it: `PforDelta2D` accepts any payload array type; `PforDelta2D_Int16` and
`PforDelta2D_Int16_Log` only `FloatArray`; `FpxXor2D` only `FloatArray`
or `DoubleArray`. -/
def compatibleWith (data_type compression : ℕ) : Prop :=
  compression = COMPRESSION_PFOR_DELTA2D
  ∨ ((compression = COMPRESSION_PFOR_DELTA2D_INT16
      ∨ compression = COMPRESSION_PFOR_DELTA2D_INT16_LOGARITHMIC)
    ∧ data_type = DATA_TYPE_FLOAT_ARRAY)
  ∨ (compression = COMPRESSION_FPX_XOR2D
    ∧ (data_type = DATA_TYPE_FLOAT_ARRAY ∨ data_type = DATA_TYPE_DOUBLE_ARRAY))

theorem comp_switch_unknown_compression (e : OmEncoder) (compression data_type : ℕ)
    (hc : ¬ compression ≤ 3) :
    om_encoder_init_compression_switch e compression data_type
      = (OmError.ERROR_INVALID_COMPRESSION_TYPE, e) := by
  unfold om_encoder_init_compression_switch
  rw [if_neg (by simp only [COMPRESSION_PFOR_DELTA2D_INT16]; omega),
    if_neg (by simp only [COMPRESSION_FPX_XOR2D]; omega),
    if_neg (by simp only [COMPRESSION_PFOR_DELTA2D]; omega),
    if_neg (by simp only [COMPRESSION_PFOR_DELTA2D_INT16_LOGARITHMIC]; omega)]

/-- C8: `om_encoder_init` returns `ERROR_INVALID_DATA_TYPE` exactly when
the data type is not a payload array type, or is a payload array type
incompatible with a known compression; it returns
`ERROR_INVALID_COMPRESSION_TYPE` exactly when the data type is a payload
array type and the compression is none of the four known variants; and it
returns `ERROR_OK` exactly on the valid pairs. -/
theorem om_encoder_init_error_classification :
    ∀ (encoder : OmEncoder) (scale_factor add_offset : F)
      (compression data_type : ℕ) (dimensions chunks : ℕ → ℕ) (dimension_count : ℕ),
      ((om_encoder_init encoder scale_factor add_offset compression data_type
          dimensions chunks dimension_count).1 = OmError.ERROR_INVALID_DATA_TYPE
        ↔ (¬ isPayloadArrayType data_type
          ∨ (isPayloadArrayType data_type ∧ isKnownCompression compression
            ∧ ¬ compatibleWith data_type compression)))
      ∧ ((om_encoder_init encoder scale_factor add_offset compression data_type
          dimensions chunks dimension_count).1 = OmError.ERROR_INVALID_COMPRESSION_TYPE
        ↔ (isPayloadArrayType data_type ∧ ¬ isKnownCompression compression))
      ∧ ((om_encoder_init encoder scale_factor add_offset compression data_type
          dimensions chunks dimension_count).1 = OmError.ERROR_OK
        ↔ (isPayloadArrayType data_type ∧ isKnownCompression compression
          ∧ compatibleWith data_type compression)) := by
  intro encoder scale_factor add_offset compression data_type dimensions chunks dimension_count
  by_cases hdt : 13 ≤ data_type ∧ data_type ≤ 22
  · obtain ⟨h1, h2⟩ := hdt
    by_cases hc : compression ≤ 3
    · interval_cases data_type <;> interval_cases compression <;>
        simp [om_encoder_init, om_encoder_init_compression_switch,
          DATA_TYPE_INT8_ARRAY, DATA_TYPE_UINT8_ARRAY, DATA_TYPE_INT16_ARRAY,
          DATA_TYPE_UINT16_ARRAY, DATA_TYPE_INT32_ARRAY, DATA_TYPE_UINT32_ARRAY,
          DATA_TYPE_INT64_ARRAY, DATA_TYPE_UINT64_ARRAY, DATA_TYPE_FLOAT_ARRAY,
          DATA_TYPE_DOUBLE_ARRAY, COMPRESSION_PFOR_DELTA2D_INT16,
          COMPRESSION_FPX_XOR2D, COMPRESSION_PFOR_DELTA2D,
          COMPRESSION_PFOR_DELTA2D_INT16_LOGARITHMIC,
          isPayloadArrayType, isKnownCompression, compatibleWith]
    · interval_cases data_type <;>
        (simp only [om_encoder_init, DATA_TYPE_INT8_ARRAY, DATA_TYPE_UINT8_ARRAY,
          DATA_TYPE_INT16_ARRAY, DATA_TYPE_UINT16_ARRAY, DATA_TYPE_INT32_ARRAY,
          DATA_TYPE_UINT32_ARRAY, DATA_TYPE_INT64_ARRAY, DATA_TYPE_UINT64_ARRAY,
          DATA_TYPE_FLOAT_ARRAY, DATA_TYPE_DOUBLE_ARRAY];
         norm_num [comp_switch_unknown_compression _ _ _ hc];
         simp [isPayloadArrayType, isKnownCompression, compatibleWith,
          COMPRESSION_PFOR_DELTA2D_INT16, COMPRESSION_FPX_XOR2D,
          COMPRESSION_PFOR_DELTA2D, COMPRESSION_PFOR_DELTA2D_INT16_LOGARITHMIC];
         omega)
  · have hne : ∀ v : ℕ, 13 ≤ v → v ≤ 22 → data_type ≠ v := by
      intro v hv1 hv2 he; exact hdt (by omega)
    unfold om_encoder_init
    rw [if_neg (by simp only [DATA_TYPE_INT8_ARRAY, DATA_TYPE_UINT8_ARRAY]; omega),
      if_neg (by simp only [DATA_TYPE_INT16_ARRAY, DATA_TYPE_UINT16_ARRAY]; omega),
      if_neg (by simp only [DATA_TYPE_INT32_ARRAY, DATA_TYPE_UINT32_ARRAY,
        DATA_TYPE_FLOAT_ARRAY]; omega),
      if_neg (by simp only [DATA_TYPE_INT64_ARRAY, DATA_TYPE_UINT64_ARRAY,
        DATA_TYPE_DOUBLE_ARRAY]; omega)]
    refine ⟨?_, ?_, ?_⟩ <;>
      simp [isPayloadArrayType, isKnownCompression, compatibleWith] <;> omega

/-! ### om_encoder_init mutates the record before validating (claim C10) -/

/-- The `bytes_per_element` (= `bytes_per_element_compressed`) value the
first switch of `om_encoder_init` writes for each payload array type. -/
def dataTypeStageBytes (data_type : ℕ) : ℕ :=
  if data_type = DATA_TYPE_INT8_ARRAY ∨ data_type = DATA_TYPE_UINT8_ARRAY then 1
  else if data_type = DATA_TYPE_INT16_ARRAY ∨ data_type = DATA_TYPE_UINT16_ARRAY then 2
  else if data_type = DATA_TYPE_INT32_ARRAY ∨ data_type = DATA_TYPE_UINT32_ARRAY
    ∨ data_type = DATA_TYPE_FLOAT_ARRAY then 4
  else if data_type = DATA_TYPE_INT64_ARRAY ∨ data_type = DATA_TYPE_UINT64_ARRAY
    ∨ data_type = DATA_TYPE_DOUBLE_ARRAY then 8
  else 0

/-- The copy callback the first switch of `om_encoder_init` writes for
each payload array type (`om_common_copy32` for both the 32-bit and the
64-bit group, as in the C source). -/
def dataTypeStageCopy (data_type : ℕ) : OmCopyCallback :=
  if data_type = DATA_TYPE_INT8_ARRAY ∨ data_type = DATA_TYPE_UINT8_ARRAY then
    .om_common_copy8
  else if data_type = DATA_TYPE_INT16_ARRAY ∨ data_type = DATA_TYPE_UINT16_ARRAY then
    .om_common_copy16
  else if data_type = DATA_TYPE_INT32_ARRAY ∨ data_type = DATA_TYPE_UINT32_ARRAY
    ∨ data_type = DATA_TYPE_FLOAT_ARRAY then .om_common_copy32
  else if data_type = DATA_TYPE_INT64_ARRAY ∨ data_type = DATA_TYPE_UINT64_ARRAY
    ∨ data_type = DATA_TYPE_DOUBLE_ARRAY then .om_common_copy32
  else .om_common_copy8

/-- C10: `om_encoder_init` is not atomic on error.  Whatever it returns
(in particular on both error returns), the returned record's
`scale_factor`, `add_offset`, `dimensions`, `chunks` and
`dimension_count` are the supplied arguments — they are written before
any validation — and whenever it returns
`ERROR_INVALID_COMPRESSION_TYPE` (only the compression check failed) the
element sizes and the copy callback of the data-type stage have been
written as well. -/
theorem om_encoder_init_mutates_before_validation :
    ∀ (encoder : OmEncoder) (scale_factor add_offset : F)
      (compression data_type : ℕ) (dimensions chunks : ℕ → ℕ) (dimension_count : ℕ)
      (err : OmError) (e' : OmEncoder),
      om_encoder_init encoder scale_factor add_offset compression data_type
          dimensions chunks dimension_count = (err, e') →
      (e'.scale_factor = scale_factor ∧ e'.add_offset = add_offset
        ∧ e'.dimensions = dimensions ∧ e'.chunks = chunks
        ∧ e'.dimension_count = dimension_count)
      ∧ (err = OmError.ERROR_INVALID_COMPRESSION_TYPE →
        e'.bytes_per_element = dataTypeStageBytes data_type
        ∧ e'.bytes_per_element_compressed = dataTypeStageBytes data_type
        ∧ e'.compress_copy_callback = dataTypeStageCopy data_type) := by
  intro encoder scale_factor add_offset compression data_type dimensions chunks
    dimension_count err e' h
  by_cases hdt : 13 ≤ data_type ∧ data_type ≤ 22
  · obtain ⟨hd1, hd2⟩ := hdt
    by_cases hc : compression ≤ 3
    · interval_cases data_type <;> interval_cases compression <;>
        (simp only [om_encoder_init, om_encoder_init_compression_switch,
          DATA_TYPE_INT8_ARRAY, DATA_TYPE_UINT8_ARRAY, DATA_TYPE_INT16_ARRAY,
          DATA_TYPE_UINT16_ARRAY, DATA_TYPE_INT32_ARRAY, DATA_TYPE_UINT32_ARRAY,
          DATA_TYPE_INT64_ARRAY, DATA_TYPE_UINT64_ARRAY, DATA_TYPE_FLOAT_ARRAY,
          DATA_TYPE_DOUBLE_ARRAY, COMPRESSION_PFOR_DELTA2D_INT16,
          COMPRESSION_FPX_XOR2D, COMPRESSION_PFOR_DELTA2D,
          COMPRESSION_PFOR_DELTA2D_INT16_LOGARITHMIC] at h;
         norm_num at h;
         obtain ⟨h1, h2⟩ := h; subst h1; subst h2;
         simp [dataTypeStageBytes, dataTypeStageCopy,
          DATA_TYPE_INT8_ARRAY, DATA_TYPE_UINT8_ARRAY, DATA_TYPE_INT16_ARRAY,
          DATA_TYPE_UINT16_ARRAY, DATA_TYPE_INT32_ARRAY, DATA_TYPE_UINT32_ARRAY,
          DATA_TYPE_INT64_ARRAY, DATA_TYPE_UINT64_ARRAY, DATA_TYPE_FLOAT_ARRAY,
          DATA_TYPE_DOUBLE_ARRAY])
    · interval_cases data_type <;>
        (simp only [om_encoder_init,
          DATA_TYPE_INT8_ARRAY, DATA_TYPE_UINT8_ARRAY, DATA_TYPE_INT16_ARRAY,
          DATA_TYPE_UINT16_ARRAY, DATA_TYPE_INT32_ARRAY, DATA_TYPE_UINT32_ARRAY,
          DATA_TYPE_INT64_ARRAY, DATA_TYPE_UINT64_ARRAY, DATA_TYPE_FLOAT_ARRAY,
          DATA_TYPE_DOUBLE_ARRAY] at h;
         norm_num at h;
         rw [comp_switch_unknown_compression _ _ _ hc] at h;
         injection h with h1 h2; subst h1; subst h2;
         simp [dataTypeStageBytes, dataTypeStageCopy,
          DATA_TYPE_INT8_ARRAY, DATA_TYPE_UINT8_ARRAY, DATA_TYPE_INT16_ARRAY,
          DATA_TYPE_UINT16_ARRAY, DATA_TYPE_INT32_ARRAY, DATA_TYPE_UINT32_ARRAY,
          DATA_TYPE_INT64_ARRAY, DATA_TYPE_UINT64_ARRAY, DATA_TYPE_FLOAT_ARRAY,
          DATA_TYPE_DOUBLE_ARRAY])
  · unfold om_encoder_init at h
    rw [if_neg (by simp only [DATA_TYPE_INT8_ARRAY, DATA_TYPE_UINT8_ARRAY]; omega),
      if_neg (by simp only [DATA_TYPE_INT16_ARRAY, DATA_TYPE_UINT16_ARRAY]; omega),
      if_neg (by simp only [DATA_TYPE_INT32_ARRAY, DATA_TYPE_UINT32_ARRAY,
        DATA_TYPE_FLOAT_ARRAY]; omega),
      if_neg (by simp only [DATA_TYPE_INT64_ARRAY, DATA_TYPE_UINT64_ARRAY,
        DATA_TYPE_DOUBLE_ARRAY]; omega)] at h
    injection h with h1 h2
    subst h1
    subst h2
    exact ⟨by simp, by intro herr; exact absurd herr (by decide)⟩

/-! ### NaN sentinels (claim C6) -/

/-- C6: for every length, every `scale_factor`/`add_offset`, and every
index `i < length`, each quantiser maps a NaN input element to the
type-specific sentinel (`INT16_MAX`/`INT32_MAX`/`INT64_MAX`), and each
dequantiser maps that sentinel back to NaN — including the log10 pair,
for every choice of the `log10f`/`powf` library functions. -/
theorem quantisers_roundtrip_nan_via_sentinel :
    ∀ (length : ℕ) (scale_factor add_offset : F) (log10f : F → F) (powf : F → F → F)
      (src : ℕ → F) (dstq : ℕ → Option ℤ) (srcz : ℕ → ℤ) (dstf : ℕ → F) (i : ℕ),
      i < length →
      ((src i = none →
          om_common_copy_float_to_int16 length scale_factor add_offset src dstq i
            = some 32767)
        ∧ (src i = none →
          om_common_copy_float_to_int32 length scale_factor add_offset src dstq i
            = some 2147483647)
        ∧ (src i = none →
          om_common_copy_double_to_int64 length scale_factor add_offset src dstq i
            = some 9223372036854775807)
        ∧ (src i = none →
          om_common_copy_float_to_int16_log10 log10f length scale_factor add_offset src dstq i
            = some 32767)
        ∧ (srcz i = 32767 →
          om_common_copy_int16_to_float length scale_factor add_offset srcz dstf i
            = none)
        ∧ (srcz i = 2147483647 →
          om_common_copy_int32_to_float length scale_factor add_offset srcz dstf i
            = none)
        ∧ (srcz i = 9223372036854775807 →
          om_common_copy_int64_to_double length scale_factor add_offset srcz dstf i
            = none)
        ∧ (srcz i = 32767 →
          om_common_copy_int16_to_float_log10 powf length scale_factor add_offset srcz dstf i
            = none)) := by
  intro length scale_factor add_offset log10f powf src dstq srcz dstf i hi
  refine ⟨?_, ?_, ?_, ?_, ?_, ?_, ?_, ?_⟩ <;> intro hs <;>
    simp [om_common_copy_float_to_int16, om_common_copy_float_to_int32,
      om_common_copy_double_to_int64, om_common_copy_float_to_int16_log10,
      om_common_copy_int16_to_float, om_common_copy_int32_to_float,
      om_common_copy_int64_to_double, om_common_copy_int16_to_float_log10,
      hi, hs]

/-- Concrete inputs for the witness of
`quantisers_roundtrip_nan_via_sentinel`. -/
def nanSrc : ℕ → F := fun _ => none

theorem quantisers_roundtrip_nan_via_sentinel_witness :
    om_common_copy_float_to_int16 1 (some 10) (some 0) nanSrc (fun _ => some 0) 0
      = some 32767
    ∧ om_common_copy_int16_to_float 1 (some 10) (some 0) (fun _ => 32767) (fun _ => some 0) 0
      = none := by
  have h := quantisers_roundtrip_nan_via_sentinel 1 (some 10) (some 0)
    (fun _ => none) (fun _ _ => none) nanSrc (fun _ => some 0) (fun _ => 32767)
    (fun _ => some 0) 0 (by decide)
  exact ⟨h.1 rfl, h.2.2.2.2.1 rfl⟩

/-! ### The log10 pair ignores add_offset (claim C7) -/

/-- C7: the log10 quantiser pair ignores `add_offset` in both directions:
for any two offsets the outputs are identical buffers; and on each
processed element the encoder computes
`round(log10f(1 + x) * scale)` clamped to the int16 range (non-NaN `x`),
while the decoder computes `powf(10, q / scale) - 1` (non-sentinel `q`) —
no offset appears in either formula. -/
theorem log10_pair_ignores_add_offset :
    ∀ (log10f : F → F) (powf : F → F → F) (length : ℕ)
      (scale_factor add_offset1 add_offset2 : F)
      (src : ℕ → F) (dstq : ℕ → Option ℤ) (srcz : ℕ → ℤ) (dstf : ℕ → F),
      om_common_copy_float_to_int16_log10 log10f length scale_factor add_offset1 src dstq
        = om_common_copy_float_to_int16_log10 log10f length scale_factor add_offset2 src dstq
      ∧ om_common_copy_int16_to_float_log10 powf length scale_factor add_offset1 srcz dstf
        = om_common_copy_int16_to_float_log10 powf length scale_factor add_offset2 srcz dstf
      ∧ (∀ (i : ℕ) (x : ℚ), i < length → src i = some x →
          om_common_copy_float_to_int16_log10 log10f length scale_factor add_offset1 src dstq i
            = castToInt (-32768) 32767
                (fmaxf (some (-32768)) (fminf (some 32767)
                  (roundf (Fmul (log10f (Fadd (some 1) (some x))) scale_factor)))))
      ∧ (∀ (i : ℕ) (q : ℤ), i < length → srcz i = q → q ≠ 32767 →
          om_common_copy_int16_to_float_log10 powf length scale_factor add_offset1 srcz dstf i
            = Fsub (powf (some 10) (Fdiv (some (q : ℚ)) scale_factor)) (some 1)) := by
  intro log10f powf length scale_factor add_offset1 add_offset2 src dstq srcz dstf
  refine ⟨rfl, rfl, ?_, ?_⟩
  · intro i x hi hx
    simp [om_common_copy_float_to_int16_log10, hi, hx]
  · intro i q hi hq hqs
    simp [om_common_copy_int16_to_float_log10, hi, hq, hqs]

theorem log10_pair_ignores_add_offset_witness :
    om_common_copy_float_to_int16_log10 (fun x => x) 1 (some 100) (some 7)
        (fun _ => some 9) (fun _ => some 0) 0
      = castToInt (-32768) 32767
          (fmaxf (some (-32768)) (fminf (some 32767)
            (roundf (Fmul ((fun x : F => x) (Fadd (some 1) (some 9))) (some 100))))) := by
  exact (log10_pair_ignores_add_offset (fun x => x) (fun _ _ => none) 1
    (some 100) (some 7) (some 0) (fun _ => some 9) (fun _ => some 0)
    (fun _ => 0) (fun _ => some 0)).2.2.1 0 9 (by decide) rfl

/-! ### Saturation and the NaN sentinel (claim C9)

For the int16 path the clamp bound `INT16_MAX = 32767` is exactly the
sentinel, so a saturating finite input collides with it.  For the int32
and int64 paths the C clamp bounds are `(float)INT32_MAX = 2^31` and
`(double)INT64_MAX = 2^63`, which exceed the sentinels
`INT32_MAX = 2^31 - 1` and `INT64_MAX = 2^63 - 1`, so a high-saturating
finite input is clamped to a value outside the destination type and the
final cast is undefined (`none` in the model) — it does not produce the
sentinel.  The probe value `2^31 = 2147483648` is exactly representable
as a `float`, and every operation the C performs on it here is exact, so
the rational model coincides with the IEEE computation at this input. -/

/-- C9 counterexample: the float value `2^31` (exactly representable) with
`scale_factor = 1`, `add_offset = 0` has scaled rounded value
`2^31 ≥ INT32_MAX`, yet the int32 quantiser does not clamp it to
`INT32_MAX`: the clamp bound is `(float)INT32_MAX = 2^31` and the final
cast of `2^31` to `int32_t` is out of range (undefined, `none`). -/
theorem int32_saturation_does_not_produce_sentinel :
    (2147483647 : ℤ) ≤ roundQ (2147483648 * 1 + 0)
    ∧ om_common_copy_float_to_int32 1 (some 1) (some 0)
        (fun _ => some 2147483648) (fun _ => some 0) 0 ≠ some 2147483647 := by
  constructor
  · norm_num [roundQ]
  · have hval : om_common_copy_float_to_int32 1 (some 1) (some 0)
        (fun _ => some 2147483648) (fun _ => some 0) 0 = none := by
      simp only [om_common_copy_float_to_int32, Fmul, Fadd, roundf, fminf, fmaxf]
      norm_num [roundQ, castToInt, truncQ]
    rw [hval]
    simp

/-- C9 (amended): a finite float whose scaled rounded value is at least
`INT16_MAX` is quantised to exactly `INT16_MAX`, the NaN sentinel, and
the int16 dequantiser decodes that sentinel as NaN; but on the int32 and
int64 linear paths a value whose scaled rounded value reaches the clamp
bound (`2^31` resp. `2^63`) is not mapped to the sentinel — the cast of
the clamped value is out of range (undefined behaviour, `none`). -/
theorem saturation_sentinel_collision_int16_only :
    ∀ (x sf ao : ℚ) (length : ℕ) (src : ℕ → F) (dstq : ℕ → Option ℤ)
      (srcz : ℕ → ℤ) (dstf : ℕ → F) (i : ℕ),
      i < length → src i = some x →
      (((32767 : ℤ) ≤ roundQ (x * sf + ao) →
          om_common_copy_float_to_int16 length (some sf) (some ao) src dstq i
            = some 32767)
        ∧ (srcz i = 32767 →
          om_common_copy_int16_to_float length (some sf) (some ao) srcz dstf i
            = none)
        ∧ ((2147483648 : ℤ) ≤ roundQ (x * sf + ao) →
          om_common_copy_float_to_int32 length (some sf) (some ao) src dstq i
            = none)
        ∧ ((9223372036854775808 : ℤ) ≤ roundQ (x * sf + ao) →
          om_common_copy_double_to_int64 length (some sf) (some ao) src dstq i
            = none)) := by
  intro x sf ao length src dstq srcz dstf i hi hx
  refine ⟨?_, ?_, ?_, ?_⟩
  · intro hcol
    have hq : (32767 : ℚ) ≤ ((roundQ (x * sf + ao) : ℤ) : ℚ) := by exact_mod_cast hcol
    have hmin : min (32767 : ℚ) ((roundQ (x * sf + ao) : ℤ) : ℚ) = 32767 := min_eq_left hq
    have hmax : max (-32768 : ℚ) (32767 : ℚ) = 32767 := by norm_num
    simp [om_common_copy_float_to_int16, hi, hx, Fmul, Fadd, roundf, fminf, fmaxf,
      hmin, hmax]
    norm_num [castToInt, truncQ]
  · intro hz
    simp [om_common_copy_int16_to_float, hi, hz]
  · intro hcol
    have hq : (2147483648 : ℚ) ≤ ((roundQ (x * sf + ao) : ℤ) : ℚ) := by exact_mod_cast hcol
    have hmin : min (2147483648 : ℚ) ((roundQ (x * sf + ao) : ℤ) : ℚ) = 2147483648 :=
      min_eq_left hq
    have hmax : max (-2147483648 : ℚ) (2147483648 : ℚ) = 2147483648 := by norm_num
    simp [om_common_copy_float_to_int32, hi, hx, Fmul, Fadd, roundf, fminf, fmaxf,
      hmin, hmax]
    norm_num [castToInt, truncQ]
  · intro hcol
    have hq : (9223372036854775808 : ℚ) ≤ ((roundQ (x * sf + ao) : ℤ) : ℚ) := by
      exact_mod_cast hcol
    have hmin : min (9223372036854775808 : ℚ) ((roundQ (x * sf + ao) : ℤ) : ℚ)
        = 9223372036854775808 := min_eq_left hq
    have hmax : max (-9223372036854775808 : ℚ) (9223372036854775808 : ℚ)
        = 9223372036854775808 := by norm_num
    simp [om_common_copy_double_to_int64, hi, hx, Fmul, Fadd, roundf, fminf, fmaxf,
      hmin, hmax]
    norm_num [castToInt, truncQ]

theorem saturation_sentinel_collision_int16_only_witness :
    om_common_copy_float_to_int16 1 (some 1) (some 0)
        (fun _ => some 40000) (fun _ => some 0) 0 = some 32767
    ∧ om_common_copy_float_to_int32 1 (some 1) (some 0)
        (fun _ => some 2200000000) (fun _ => some 0) 0 = none := by
  constructor
  · exact (saturation_sentinel_collision_int16_only 40000 1 0 1
      (fun _ => some 40000) (fun _ => some 0) (fun _ => 0) (fun _ => some 0) 0
      (by decide) rfl).1 (by norm_num [roundQ])
  · exact (saturation_sentinel_collision_int16_only 2200000000 1 0 1
      (fun _ => some 2200000000) (fun _ => some 0) (fun _ => 0) (fun _ => some 0) 0
      (by decide) rfl).2.2.1 (by norm_num [roundQ])

theorem om_encoder_init_mutates_before_validation_witness :
    (om_encoder_init probeEncoder (some 2) (some 3) 9 DATA_TYPE_INT8_ARRAY
        (fun _ => 5) (fun _ => 2) 1).2.scale_factor = some 2
    ∧ (om_encoder_init probeEncoder (some 2) (some 3) 9 DATA_TYPE_INT8_ARRAY
        (fun _ => 5) (fun _ => 2) 1).2.bytes_per_element
      = dataTypeStageBytes DATA_TYPE_INT8_ARRAY := by
  have h := om_encoder_init_mutates_before_validation probeEncoder (some 2) (some 3)
    9 DATA_TYPE_INT8_ARRAY (fun _ => 5) (fun _ => 2) 1
    (om_encoder_init probeEncoder (some 2) (some 3) 9 DATA_TYPE_INT8_ARRAY
      (fun _ => 5) (fun _ => 2) 1).1
    (om_encoder_init probeEncoder (some 2) (some 3) 9 DATA_TYPE_INT8_ARRAY
      (fun _ => 5) (fun _ => 2) 1).2 rfl
  exact ⟨h.1.1, (h.2 (by decide)).1⟩

/-! ### Supporting evaluations: the gather model on documented-good inputs

These runs reproduce the behaviour the spec documents for regular
sub-region gathers (spec §8 scenario D among them), showing that the
failures exhibited above are confined to the flush-region boundary case:
sub-regions that end strictly inside the bounding box, or that start at a
chunk-aligned offset of zero, gather correctly. -/

/-- Spec scenario D: `arrayDimensions=[10,10]`, `arrayOffset=[2,3]`,
`arrayCount=[4,4]`, `dims=[4,4]`, `chunks=[4,4]`; gathering chunk 0 is a
direct copy of the `[2..6, 3..7]` slab. -/
def scenarioDRun : ChunkResult :=
  om_encoder_compress_chunk 2 (fun _ => 4) (fun _ => 4) id (fun j => j)
    (fun _ => 10) (fun i => if i = 0 then 2 else 3) (fun _ => 4) 0 0 (fun _ => 999) 20

theorem scenario_d_gathers_the_slab :
    scenarioDRun.isOk = true
    ∧ scenarioDRun.bufAt 0 = some 23
    ∧ scenarioDRun.bufAt 3 = some 26
    ∧ scenarioDRun.bufAt 4 = some 33
    ∧ scenarioDRun.bufAt 15 = some 56 := by
  refine ⟨?_, ?_, ?_, ?_, ?_⟩ <;> decide

/-- A chunk-aligned sub-region with a nonzero offset that ends strictly
inside the bounding box: `dims=[4]`, `chunks=[2]`, buffer `[10]` at
offset `1`, count `4`, gathering chunk 1 (relative chunk index 1) reads
buffer elements `3, 4`. -/
def interiorRegionRun : ChunkResult :=
  om_encoder_compress_chunk 1 (fun _ => 4) (fun _ => 2) id (fun j => j)
    (fun _ => 10) (fun _ => 1) (fun _ => 4) 1 1 (fun _ => 999) 20

theorem interior_region_gathers_correctly :
    interiorRegionRun.isOk = true
    ∧ interiorRegionRun.bufAt 0 = some 3
    ∧ interiorRegionRun.bufAt 1 = some 4 := by
  refine ⟨?_, ?_, ?_⟩ <;> decide
